import Mathlib

/-!
Verification of the DIP (Document Intelligence Packet) extraction pipeline of
the REIMAGINEDAPPV2 python sidecar (`app/dip_processor.py`, `app/parser.py`,
and the dedup/cap step of `test_anthropic_chunks.py`), as a shallow embedding.

Conventions of the embedding:
* Python strings are Lean `String`s; `str.strip()` is `String.pyStrip`,
  `str.lower()` is `String.pyLower`, `sub in s` is `strContains s sub`,
  `s.find(sub, start)` is `pyFind s sub start` (returning `-1` when absent,
  as in Python), and `s[a:b]` is `pySlice s a b` (indices are code points,
  exactly as Python indexes `str`).
* Python floats in the confidence computation are embedded as rationals `ℚ`;
  the computation only adds the constants 0.7, 0.1, 0.05 and takes a `min`,
  so the rational model tracks the source arithmetic structure exactly.
* The Python `re` regex engine is external to the repository.  A compiled
  regex applied through `re.finditer` is embedded as an abstract matcher
  `Matcher := String → Option (List RMatch)`; `none` models `re` raising an
  exception for that pattern, `some ms` models the (finite) match list.
  Concrete scenarios instantiate matchers with the hand-evaluated behaviour
  of the source's literal regex patterns on the concrete contents.
-/

/-- Python's whitespace characters for `str.strip()`. -/
def isPyWs (c : Char) : Bool :=
  c = ' ' ∨ c = '\t' ∨ c = '\n' ∨ c = '\r' ∨ c = '\x0b' ∨ c = '\x0c'

/-- Python's `str.strip()` (no argument): drop whitespace from both ends.
List-based so that it evaluates inside the kernel. -/
def String.pyStrip (s : String) : String :=
  ⟨((s.toList.dropWhile isPyWs).reverse.dropWhile isPyWs).reverse⟩

/-- ASCII lower-casing of one character, as `str.lower()` acts on the ASCII
range (the contents handled by the verified scenarios are ASCII). -/
def charLower (c : Char) : Char :=
  if 'A' ≤ c ∧ c ≤ 'Z' then Char.ofNat (c.toNat + 32) else c

/-- Python's `str.lower()`, list-based so that it evaluates in the kernel. -/
def String.pyLower (s : String) : String :=
  ⟨s.toList.map charLower⟩

/-- `startsWithSeg pat s` is true iff the char list `pat` is an initial
segment of `s` (helper for Python's substring containment). -/
def startsWithSeg : List Char → List Char → Bool
  | [], _ => true
  | _ :: _, [] => false
  | p :: ps, c :: cs => p = c && startsWithSeg ps cs

/-- `containsSeg pat s` is true iff `pat` occurs contiguously in `s`. -/
def containsSeg (pat : List Char) : List Char → Bool
  | [] => pat.isEmpty
  | c :: cs => startsWithSeg pat (c :: cs) || containsSeg pat cs

/-- Python's `sub in s` substring test. -/
def strContains (s sub : String) : Bool :=
  containsSeg sub.toList s.toList

/-- First index (from `i`) at which `pat` starts in `s`, if any. -/
def findSegAux (pat : List Char) : List Char → Nat → Option Nat
  | [], i => if pat.isEmpty then some i else none
  | c :: cs, i => if startsWithSeg pat (c :: cs) then some i else findSegAux pat cs (i + 1)

/-- Python's `s.find(sub, start)`: code-point index of the first occurrence of
`sub` in `s` at or after `start`, or `-1` when there is none. -/
def pyFind (s sub : String) (start : Nat) : Int :=
  match findSegAux sub.toList (s.toList.drop start) 0 with
  | some i => ((start + i : Nat) : Int)
  | none => -1

/-- Python's slice `s[a:b]` for already-clamped nonnegative indices. -/
def pySlice (s : String) (a b : Nat) : String :=
  ⟨(s.toList.drop a).take (b - a)⟩

/-- Python's slice `s[a:]`. -/
def pySliceFrom (s : String) (a : Nat) : String :=
  ⟨s.toList.drop a⟩

/-- An embedded `re` match object: `group0` is `match.group(0)` (the full
match text), `groups` lists the captured groups (`groups.get? 0` is
`match.group(1)`; `none` entries are groups that did not participate),
`mstart`/`mstop` are `match.start()`/`match.end()`. -/
structure RMatch where
  group0 : String
  groups : List (Option String)
  mstart : Nat
  mstop : Nat
deriving Repr, DecidableEq

/-- A compiled regex pattern applied via `re.finditer`, abstracted: `none`
models the pattern raising an exception on that content (caught per-pattern
in the source), `some ms` the resulting match list in scan order. -/
abbrev Matcher : Type := String → Option (List RMatch)

/-- A category→patterns table (`entity_patterns`, `spec_hint_patterns`,
`golden_test_patterns` in `DIPProcessor.__init__`), with each literal regex
string embedded as a `Matcher`. -/
abbrev PatternTable : Type := List (String × List Matcher)

/-- Python's two-argument `min` on rationals, kept as an explicit
if-then-else so that it evaluates inside the kernel. -/
def pyMin (a b : ℚ) : ℚ :=
  if a ≤ b then a else b

/-- The recognized unit tokens of `DIPProcessor._calculate_confidence`. -/
def unitTokens : List String := ["psi", "volts", "°c", "°f", "gpm"]

/-- `DIPProcessor._calculate_confidence` (dip_processor.py:793-808): base 0.7;
+0.1 for a full-match text longer than 20 characters, else +0.05 when longer
than 10; +0.1 when the lower-cased full match contains a recognized unit
token; capped at 1.0 by `min`.  Takes `content` like the source does, and
like the source never reads it. -/
def calculateConfidence (m : RMatch) (content : String) : ℚ :=
  let base : ℚ := 7/10
  let base1 : ℚ :=
    if m.group0.length > 20 then base + 1/10
    else if m.group0.length > 10 then base + 1/20
    else base
  let base2 : ℚ :=
    if unitTokens.any (fun u => strContains m.group0.pyLower u) then base1 + 1/10
    else base1
  pyMin base2 1

/-- The confidence formula exactly as the spec states it (spec.md §4.2
"Confidence scoring"): base 0.7 plus a length bonus (0.10 above 20
characters, else 0.05 above 10) plus a 0.10 unit bonus, capped at 1.0.
Defined from the spec's words to compare against `calculateConfidence`. -/
def specConfidence (matchText : String) : ℚ :=
  let lengthBonus : ℚ :=
    if matchText.length > 20 then 1/10
    else if matchText.length > 10 then 1/20
    else 0
  let unitBonus : ℚ :=
    if unitTokens.any (fun u => strContains matchText.pyLower u) then 1/10 else 0
  pyMin (7/10 + lengthBonus + unitBonus) 1

/-- `DIPProcessor._extract_context` (dip_processor.py:810-814) with the
default `context_length = 100`: slice ±100 code points around the match span,
clamped to the content bounds, and strip. -/
def extractContext (content : String) (start stop : Nat) : String :=
  let contextStart := start - 100
  let contextEnd := min content.length (stop + 100)
  (pySlice content contextStart contextEnd).pyStrip

/-- The keyword sets of `DIPProcessor._categorize_procedure`
(dip_processor.py:776-791), in source order. -/
def installationKeywords : List String := ["install", "setup", "mount", "connect"]

def operationKeywords : List String := ["start", "stop", "power", "on", "off", "shutdown"]

def troubleshootingKeywords : List String := ["troubleshoot", "diagnose", "fix", "repair", "error"]

def maintenanceKeywords : List String := ["maintain", "clean", "service", "inspect", "check"]

def safetyKeywords : List String := ["safety", "warning", "caution", "danger"]

/-- `DIPProcessor._categorize_procedure`: lower-case the title, then test the
keyword sets in priority order; default category is `"operation"`. -/
def categorizeProcedure (title : String) : String :=
  let titleLower := title.pyLower
  if installationKeywords.any (fun w => strContains titleLower w) then "installation"
  else if operationKeywords.any (fun w => strContains titleLower w) then "operation"
  else if troubleshootingKeywords.any (fun w => strContains titleLower w) then "troubleshooting"
  else if maintenanceKeywords.any (fun w => strContains titleLower w) then "maintenance"
  else if safetyKeywords.any (fun w => strContains titleLower w) then "safety"
  else "operation"

/-- The categorization scheme as the spec states it (spec.md §4.3
"Categorization"): a fixed priority-ordered table of keyword sets. -/
def specCategoryTable : List (List String × String) :=
  [(installationKeywords, "installation"),
   (operationKeywords, "operation"),
   (troubleshootingKeywords, "troubleshooting"),
   (maintenanceKeywords, "maintenance"),
   (safetyKeywords, "safety")]

/-- First category of `specCategoryTable` whose keyword set hits the
lower-cased title; default `"operation"`. -/
def firstCategory (titleLower : String) : List (List String × String) → String
  | [] => "operation"
  | (ws, cat) :: rest =>
    if ws.any (fun w => strContains titleLower w) then cat else firstCategory titleLower rest

/-- Spec-side categorization: keyword scan of the title against
`specCategoryTable` in priority order, defaulting to `"operation"`. -/
def specCategorize (title : String) : String :=
  firstCategory title.pyLower specCategoryTable

/-- `PageElement` (models.py:46-53), restricted to the fields the verified
pipeline reads (the bbox, carried for provenance only, is omitted). -/
structure PageElement where
  page : Nat
  element_type : String
  content : String
  has_text_layer : Bool
  ocr_used : Bool
deriving Repr, DecidableEq

/-- `DIPEntity` (models.py:105-112), bbox omitted as above. -/
structure DIPEntity where
  entity_type : String
  value : String
  confidence : ℚ
  page : Nat
  context : String
deriving Repr, DecidableEq

/-- `DIPSpecHint` (models.py:114-122), bbox omitted. -/
structure DIPSpecHint where
  hint_type : String
  value : String
  unit : Option String
  page : Nat
  context : String
  confidence : ℚ
deriving Repr, DecidableEq

/-- `DIPGoldenTest` (models.py:124-133), bbox omitted. -/
structure DIPGoldenTest where
  test_name : String
  test_type : String
  description : String
  steps : List String
  expected_result : String
  page : Nat
  confidence : ℚ
deriving Repr, DecidableEq

/-- The per-match body of the `extract_entities` inner loop
(dip_processor.py:224-239): a match with no groups yields nothing;
`match.group(1)` being a non-participating group makes `.strip()` raise,
which the per-pattern handler catches — the pattern's remaining matches are
dropped; otherwise the stripped value is kept when longer than 2. -/
def processEntityMatches (entityType content : String) (page : Nat) :
    List RMatch → List DIPEntity
  | [] => []
  | m :: rest =>
    match m.groups with
    | [] => processEntityMatches entityType content page rest
    | g1 :: _ =>
      match g1 with
      | none => []
      | some s =>
        let value := s.pyStrip
        if value.length > 2 then
          { entity_type := entityType, value := value,
            confidence := calculateConfidence m content, page := page,
            context := extractContext content m.mstart m.mstop }
            :: processEntityMatches entityType content page rest
        else processEntityMatches entityType content page rest

/-- Running one pattern of `extract_entities` inside its try/except
(dip_processor.py:222-242): a raising pattern (`none`) contributes nothing
and the pass continues. -/
def runEntityPattern (entityType content : String) (page : Nat) (pat : Matcher) :
    List DIPEntity :=
  match pat content with
  | none => []
  | some ms => processEntityMatches entityType content page ms

/-- `DIPProcessor.extract_entities` (dip_processor.py:212-244): for every
`text`/`ocr` element, evaluate every pattern of every category against the
lower-cased content, in table order. -/
def extractEntities (table : PatternTable) (elements : List PageElement) :
    List DIPEntity :=
  elements.bind fun element =>
    if element.element_type = "text" ∨ element.element_type = "ocr" then
      let content := element.content.pyLower
      table.bind fun cat =>
        cat.2.bind fun pat => runEntityPattern cat.1 content element.page pat
    else []

/-- The per-match body of the `extract_spec_hints` inner loop
(dip_processor.py:258-281).  The unit is `match.group(2)` stripped, when a
second group exists and is truthy; a falsy (or whitespace-only, hence
stripped-to-empty) unit falls back to `_extract_unit_from_text`, which scans
the content with two further regexes and is embedded as the abstract
`unitFromText` oracle. -/
def processSpecHintMatches (unitFromText : String → Nat → Nat → Option String)
    (hintType content : String) (page : Nat) : List RMatch → List DIPSpecHint
  | [] => []
  | m :: rest =>
    match m.groups with
    | [] => processSpecHintMatches unitFromText hintType content page rest
    | g1 :: gs =>
      match g1 with
      | none => []
      | some s =>
        let value := s.pyStrip
        let g2 : Option String := match gs with
          | g2 :: _ => g2
          | [] => none
        let u0 : Option String := match g2 with
          | some u => if u = "" then none else some u.pyStrip
          | none => none
        let unit : Option String := match u0 with
          | some u => if u = "" then unitFromText content m.mstart m.mstop else some u
          | none => unitFromText content m.mstart m.mstop
        if value.length > 0 then
          { hint_type := hintType, value := value, unit := unit, page := page,
            context := extractContext content m.mstart m.mstop,
            confidence := calculateConfidence m content }
            :: processSpecHintMatches unitFromText hintType content page rest
        else processSpecHintMatches unitFromText hintType content page rest

/-- Running one pattern of `extract_spec_hints` inside its try/except
(dip_processor.py:255-284). -/
def runSpecHintPattern (unitFromText : String → Nat → Nat → Option String)
    (hintType content : String) (page : Nat) (pat : Matcher) : List DIPSpecHint :=
  match pat content with
  | none => []
  | some ms => processSpecHintMatches unitFromText hintType content page ms

/-- `DIPProcessor.extract_spec_hints` (dip_processor.py:246-286). -/
def extractSpecHints (unitFromText : String → Nat → Nat → Option String)
    (table : PatternTable) (elements : List PageElement) : List DIPSpecHint :=
  elements.bind fun element =>
    if element.element_type = "text" ∨ element.element_type = "ocr" then
      let content := element.content.pyLower
      table.bind fun cat =>
        cat.2.bind fun pat =>
          runSpecHintPattern unitFromText cat.1 content element.page pat
    else []

/-- Python's `str.title()` on the single-word category labels used as
`f"{test_type.title()} Test"` in `extract_golden_tests`: capitalize the
first letter. -/
def pyTitleWord (s : String) : String :=
  match s.toList with
  | [] => ""
  | c :: cs => ⟨c.toUpper :: cs⟩

/-- The per-match body of the `extract_golden_tests` inner loop
(dip_processor.py:330-353); `stepsOf content start` embeds
`_extract_steps(content, match.start())`, whose internal regex scan over a
500-character window is external (`re`). -/
def processGoldenTestMatches (stepsOf : String → Nat → List String)
    (testType content : String) (page : Nat) : List RMatch → List DIPGoldenTest
  | [] => []
  | m :: rest =>
    match m.groups with
    | [] => processGoldenTestMatches stepsOf testType content page rest
    | g1 :: _ =>
      match g1 with
      | none => []
      | some s =>
        let description := s.pyStrip
        if description.length > 5 then
          { test_name := pyTitleWord testType ++ " Test", test_type := testType,
            description := description, steps := stepsOf content m.mstart,
            expected_result := extractContext content m.mstart m.mstop,
            page := page, confidence := calculateConfidence m content }
            :: processGoldenTestMatches stepsOf testType content page rest
        else processGoldenTestMatches stepsOf testType content page rest

/-- Running one pattern of `extract_golden_tests` inside its try/except
(dip_processor.py:328-356). -/
def runGoldenTestPattern (stepsOf : String → Nat → List String)
    (testType content : String) (page : Nat) (pat : Matcher) : List DIPGoldenTest :=
  match pat content with
  | none => []
  | some ms => processGoldenTestMatches stepsOf testType content page ms

/-- `DIPProcessor.extract_golden_tests` (dip_processor.py:319-358). -/
def extractGoldenTests (stepsOf : String → Nat → List String)
    (table : PatternTable) (elements : List PageElement) : List DIPGoldenTest :=
  elements.bind fun element =>
    if element.element_type = "text" ∨ element.element_type = "ocr" then
      let content := element.content.pyLower
      table.bind fun cat =>
        cat.2.bind fun pat =>
          runGoldenTestPattern stepsOf cat.1 content element.page pat
    else []

/-- The result of `DIPProcessor.process_document` (dip_processor.py:831-858),
restricted to its deterministic payload (the wall-clock `processing_time` and
log lines are omitted). -/
structure DIPResult where
  success : Bool
  doc_id : String
  entities : List DIPEntity
  spec_hints : List DIPSpecHint
  golden_tests : List DIPGoldenTest
  pages_processed : Nat
  entities_count : Nat
  hints_count : Nat
  tests_count : Nat
deriving Repr, DecidableEq

/-- The pattern tables and external-regex oracles a `DIPProcessor` carries:
the three category→pattern tables of `__init__`, plus the embedded
`_extract_unit_from_text` and `_extract_steps` regex scans. -/
structure ExtractorConfig where
  entity_patterns : PatternTable
  spec_hint_patterns : PatternTable
  golden_test_patterns : PatternTable
  unitFromText : String → Nat → Nat → Option String
  stepsOf : String → Nat → List String

/-- `pages_processed = len(set(e.page for e in elements))`
(dip_processor.py:854). -/
def distinctPageCount (elements : List PageElement) : Nat :=
  ((elements.map (fun e => e.page)).dedup).length

/-- `DIPProcessor.process_document` (dip_processor.py:831-858): run the three
extraction passes over the elements and assemble the packet with counts. -/
def processDocument (cfg : ExtractorConfig) (elements : List PageElement)
    (docId : String) : DIPResult :=
  let entities := extractEntities cfg.entity_patterns elements
  let spec_hints := extractSpecHints cfg.unitFromText cfg.spec_hint_patterns elements
  let golden_tests := extractGoldenTests cfg.stepsOf cfg.golden_test_patterns elements
  { success := true, doc_id := docId, entities := entities,
    spec_hints := spec_hints, golden_tests := golden_tests,
    pages_processed := distinctPageCount elements,
    entities_count := entities.length, hints_count := spec_hints.length,
    tests_count := golden_tests.length }

/-- A page as `PDFParser.parse_pdf` observes it through pdfplumber and
pytesseract (both external): `hasChars` is `bool(page.chars)`,
`extractedText` is `page.extract_text() or ""`, and `ocrText` is the
pytesseract result for the page image (`none` models OCR raising). -/
structure PDFPage where
  hasChars : Bool
  extractedText : String
  ocrText : Option String
deriving Repr, DecidableEq

/-- `PDFParser._extract_text_elements` (parser.py:145-173): strip the
extracted text; an empty result yields no element (triggering the OCR
fallback), otherwise one whole-page `text` element. -/
def extractTextElements (page : PDFPage) (pageNum : Nat) : List PageElement :=
  let text := page.extractedText.pyStrip
  if text = "" then []
  else [{ page := pageNum, element_type := "text", content := text,
          has_text_layer := true, ocr_used := false }]

/-- `PDFParser._extract_ocr_elements` (parser.py:224-266): OCR raising yields
no element; stripped-empty OCR text yields no element; otherwise one
whole-page `ocr` element. -/
def extractOcrElements (page : PDFPage) (pageNum : Nat) : List PageElement :=
  match page.ocrText with
  | none => []
  | some t =>
    let ocrText := t.pyStrip
    if ocrText = "" then []
    else [{ page := pageNum, element_type := "ocr", content := ocrText,
            has_text_layer := false, ocr_used := true }]

/-- The per-page branch of `PDFParser.parse_pdf` (parser.py:59-94): pages
with a text layer get text extraction with OCR fallback when it produced no
elements and OCR is enabled; pages without a text layer get OCR only when it
is enabled and tesseract is available, else nothing. -/
def parsePage (ocrEnabled tesseractAvailable : Bool) (pageNum : Nat)
    (page : PDFPage) : List PageElement :=
  if page.hasChars then
    let textElements := extractTextElements page pageNum
    if textElements.isEmpty ∧ ocrEnabled then
      textElements ++ extractOcrElements page pageNum
    else textElements
  else
    if ocrEnabled ∧ tesseractAvailable then extractOcrElements page pageNum
    else []

/-- The element stream of `PDFParser.parse_pdf` over a document: pages are
processed in order, numbered from 1. -/
def parsePdfElements (ocrEnabled tesseractAvailable : Bool)
    (pages : List PDFPage) : List PageElement :=
  (pages.enum.map fun pe => parsePage ocrEnabled tesseractAvailable (pe.1 + 1) pe.2).join

/-- A procedure as the aggregation step of
`test_anthropic_chunks.py:test_anthropic_chunks_extraction` sees it: a dict
with a `title` (defaulting to `""`) and payload; only the fields the dedup
step reads or carries are kept. -/
structure Procedure where
  title : String
  steps : List String
deriving Repr, DecidableEq

/-- The dedup key `proc.get('title', '').strip().lower()`
(test_anthropic_chunks.py:292). -/
def normTitle (title : String) : String :=
  title.pyStrip.pyLower

/-- One iteration of the dedup-and-cap loop (test_anthropic_chunks.py:289-295):
accept the procedure when its key is non-empty (truthy), unseen, and fewer
than 25 procedures are retained. -/
def dedupStep (acc : List Procedure × List String) (proc : Procedure) :
    List Procedure × List String :=
  let title := normTitle proc.title
  if title ≠ "" ∧ title ∉ acc.2 ∧ acc.1.length < 25 then
    (acc.1 ++ [proc], title :: acc.2)
  else acc

/-- The whole dedup-and-cap step: fold `dedupStep` over the aggregated list
starting from no retained procedures and no seen titles. -/
def dedupProcedures (procs : List Procedure) : List Procedure :=
  (procs.foldl dedupStep ([], [])).1

/-- The brace-depth scan of `_extract_playbook_hints_anthropic_impl`
(dip_processor.py:570-580): enumerate characters, increment depth on an
opening brace, decrement on a closing one, and return `i + 1` at the first
closing brace that brings the depth to zero; `-1` when none does.  The depth
is an integer, as in the source, so unmatched closing braces drive it
negative without terminating the scan. -/
def braceScan : List Char → Nat → Int → Int
  | [], _, _ => -1
  | c :: cs, i, depth =>
    if c = '\x7b' then braceScan cs (i + 1) (depth + 1)
    else if c = '\x7d' then
      if depth - 1 = 0 then (i : Int) + 1
      else braceScan cs (i + 1) (depth - 1)
    else braceScan cs (i + 1) depth

/-- The JSON-recovery pipeline of `_extract_playbook_hints_anthropic_impl`
(dip_processor.py:553-583): strip; if a ```json fence is present, cut from
just after it to the next fence (or to the end when unclosed) and strip;
if the first opening brace is at a positive index, cut from it and strip;
then brace-depth-scan and, when a positive end position was found, cut to it
and strip. -/
def recoverJson (responseContent : String) : String :=
  let jsonContent := responseContent.pyStrip
  let jsonContent :=
    if strContains jsonContent "```json" then
      let jsonStart := pyFind jsonContent "```json" 0 + 7
      let jsonEnd := pyFind jsonContent "```" jsonStart.toNat
      if jsonEnd ≠ -1 then (pySlice jsonContent jsonStart.toNat jsonEnd.toNat).pyStrip
      else (pySliceFrom jsonContent jsonStart.toNat).pyStrip
    else jsonContent
  let jsonStartPos := pyFind jsonContent "\x7b" 0
  let jsonContent :=
    if jsonStartPos > 0 then (pySliceFrom jsonContent jsonStartPos.toNat).pyStrip
    else jsonContent
  let jsonEndPos := braceScan jsonContent.toList 0 0
  if jsonEndPos > 0 then (pySlice jsonContent 0 jsonEndPos.toNat).pyStrip
  else jsonContent

/-- JSON values, for modelling `json.loads` on recovered responses. -/
inductive JsonVal where
  | jnull : JsonVal
  | jbool : Bool → JsonVal
  | jnum : Int → JsonVal
  | jstr : String → JsonVal
  | jarr : List JsonVal → JsonVal
  | jobj : List (String × JsonVal) → JsonVal
deriving Repr

/-- Skip JSON whitespace. -/
def skipWs : List Char → List Char
  | c :: cs => if c = ' ' ∨ c = '\n' ∨ c = '\t' ∨ c = '\r' then skipWs cs else c :: cs
  | [] => []

/-- Parse the remainder of a JSON string literal after the opening quote,
returning the decoded string and the rest of the input.  Supports the
escapes needed by the modelled responses. -/
def parseStringLit : List Char → Option (String × List Char)
  | [] => none
  | '"' :: cs => some ("", cs)
  | '\\' :: e :: cs =>
    let ec : Option Char :=
      if e = '"' then some '"'
      else if e = '\\' then some '\\'
      else if e = '/' then some '/'
      else if e = 'n' then some '\n'
      else if e = 't' then some '\t'
      else if e = 'r' then some '\r'
      else none
    match ec with
    | none => none
    | some ch => (parseStringLit cs).map fun sr => (⟨ch :: sr.1.toList⟩, sr.2)
  | '\\' :: [] => none
  | c :: cs => (parseStringLit cs).map fun sr => (⟨c :: sr.1.toList⟩, sr.2)

/-- Leading decimal digits of the input, and the rest. -/
def takeDigits : List Char → List Char × List Char
  | [] => ([], [])
  | c :: cs =>
    if c.isDigit then
      let dr := takeDigits cs
      (c :: dr.1, dr.2)
    else ([], c :: cs)

/-- Numeric value of a list of decimal digits. -/
def digitsToNat (ds : List Char) : Nat :=
  ds.foldl (fun a c => a * 10 + (c.toNat - 48)) 0

/-- The parsing mode of the fuel-indexed JSON parser: a single value, the
elements of an array (accumulated reversed), or the fields of an object. -/
inductive PMode where
  | pval : PMode
  | parrElems : List JsonVal → PMode
  | pobjFields : List (String × JsonVal) → PMode

/-- Fuel-indexed recursive-descent JSON parser, modelling `json.loads` on
the response shapes the recovery step produces.  In `pval` mode the input may
have leading whitespace; in the other modes it is positioned at a closing
bracket, a separator aftermath, or the next item. -/
def pstep : Nat → PMode → List Char → Option (JsonVal × List Char)
  | 0, _, _ => none
  | fuel + 1, PMode.pval, cs =>
    match skipWs cs with
    | [] => none
    | c :: rest =>
      if c = '"' then (parseStringLit rest).map fun sr => (JsonVal.jstr sr.1, sr.2)
      else if c = '\x7b' then pstep fuel (PMode.pobjFields []) (skipWs rest)
      else if c = '[' then pstep fuel (PMode.parrElems []) (skipWs rest)
      else if c = 't' then
        if startsWithSeg "rue".toList rest then some (JsonVal.jbool true, rest.drop 3)
        else none
      else if c = 'f' then
        if startsWithSeg "alse".toList rest then some (JsonVal.jbool false, rest.drop 4)
        else none
      else if c = 'n' then
        if startsWithSeg "ull".toList rest then some (JsonVal.jnull, rest.drop 3)
        else none
      else if c = '-' then
        match takeDigits rest with
        | ([], _) => none
        | (ds, r) => some (JsonVal.jnum (-(digitsToNat ds : Int)), r)
      else if c.isDigit then
        match takeDigits (c :: rest) with
        | ([], _) => none
        | (ds, r) => some (JsonVal.jnum (digitsToNat ds : Int), r)
      else none
  | fuel + 1, PMode.parrElems acc, cs =>
    match cs with
    | ']' :: r => some (JsonVal.jarr acc.reverse, r)
    | _ =>
      match pstep fuel PMode.pval cs with
      | none => none
      | some (v, r) =>
        match skipWs r with
        | ',' :: r2 => pstep fuel (PMode.parrElems (v :: acc)) (skipWs r2)
        | ']' :: r2 => some (JsonVal.jarr (v :: acc).reverse, r2)
        | _ => none
  | fuel + 1, PMode.pobjFields acc, cs =>
    match cs with
    | '\x7d' :: r => some (JsonVal.jobj acc.reverse, r)
    | '"' :: r =>
      match parseStringLit r with
      | none => none
      | some (k, r1) =>
        match skipWs r1 with
        | ':' :: r2 =>
          match pstep fuel PMode.pval r2 with
          | none => none
          | some (v, r3) =>
            match skipWs r3 with
            | ',' :: r4 => pstep fuel (PMode.pobjFields ((k, v) :: acc)) (skipWs r4)
            | '\x7d' :: r4 => some (JsonVal.jobj ((k, v) :: acc).reverse, r4)
            | _ => none
        | _ => none
    | _ => none

/-- `json.loads` model: parse a complete JSON value; trailing non-whitespace
input is a parse failure, as in Python. -/
def parseJson (s : String) : Option JsonVal :=
  match pstep (2 * s.length + 8) PMode.pval s.toList with
  | some (v, rest) => if (skipWs rest).isEmpty then some v else none
  | none => none

/-- The C2 provider response: explanatory text, a ```json fence around the
JSON object, a closing fence, and trailing text. -/
def c2Response : String :=
  "Sure! Here is the answer:\n```json\n\x7b\"procedures\":[\x7b\"title\":\"A\"\x7d]\x7d\n```\nThanks."

/-- The JSON object the recovery step should isolate. -/
def c2Expected : String := "\x7b\"procedures\":[\x7b\"title\":\"A\"\x7d]\x7d"

/-- C2: the JSON-recovery step of the model-assisted procedure extractor,
fed the response `"Sure! Here is the answer:"` + newline + a ```json fenced
block containing the procedures object + a closing fence + `"Thanks."`,
isolates exactly the substring `{"procedures":[{"title":"A"}]}` via fence
stripping, first-brace location and brace-depth scanning, and that substring
parses successfully (to the one-procedure object) without raising. -/
theorem json_recovery_fenced_response :
    recoverJson c2Response = c2Expected ∧
    parseJson (recoverJson c2Response) =
      some (JsonVal.jobj
        [("procedures", JsonVal.jarr [JsonVal.jobj [("title", JsonVal.jstr "A")]])]) :=
  ⟨by decide, by rfl⟩

/-- C4: for every regex match (in every pattern category — all categories
share `_calculate_confidence`), the computed confidence equals the spec's
formula over the full match text: base 0.7, plus 0.10 when the text exceeds
20 characters (else 0.05 when it exceeds 10), plus 0.10 when it contains a
recognized unit token, capped at 1.0. -/
theorem confidence_equals_spec_formula (m : RMatch) (content : String) :
    calculateConfidence m content = specConfidence m.group0 := by
  unfold calculateConfidence specConfidence pyMin
  split_ifs <;> norm_num

/-- C5: the confidence computation is deterministic and a pure function of
the matched span's text alone — two matches with the same full-match text
receive identical confidences, whatever their positions, captured groups, or
surrounding contents (the source's unused `content` parameter included). -/
theorem confidence_pure_function_of_match_text (m1 m2 : RMatch) (c1 c2 : String)
    (h : m1.group0 = m2.group0) :
    calculateConfidence m1 c1 = calculateConfidence m2 c2 := by
  unfold calculateConfidence
  rw [h]

/-- Witness for C5 at concrete matches differing in everything except the
full match text. -/
theorem confidence_pure_function_witness :
    calculateConfidence ⟨"45 psi", [some "45"], 0, 6⟩ "operating pressure: 45 psi" =
      calculateConfidence ⟨"45 psi", [some "45", some "psi"], 20, 26⟩ "another content" :=
  confidence_pure_function_of_match_text _ _ _ _ rfl

/-- C10: every computed confidence lies in the closed interval
[0.7, 0.9] — the maximum attainable value is 0.7 + 0.1 + 0.1 = 0.9, so the
1.0 cap is never reached and no regex-extracted candidate has confidence
1.0. -/
theorem confidence_bounds (m : RMatch) (content : String) :
    7/10 ≤ calculateConfidence m content ∧ calculateConfidence m content ≤ 9/10 ∧
      calculateConfidence m content < 1 := by
  unfold calculateConfidence
  split_ifs <;> constructor <;> norm_num [pyMin]

/-- C9: every retained procedure's category is determined only by its title,
by keyword scan in the fixed priority order (installation, then
start/stop/power operation, then troubleshooting, then maintenance, then
safety, default operation) — `_categorize_procedure` coincides with the
spec's priority-table scan and always returns one of the five categories. -/
theorem categorize_matches_priority_table (title : String) :
    categorizeProcedure title = specCategorize title ∧
      categorizeProcedure title ∈
        ["installation", "operation", "troubleshooting", "maintenance", "safety"] := by
  refine ⟨rfl, ?_⟩
  simp only [categorizeProcedure]
  split_ifs <;> simp

/-- Folding `dedupStep` from retained list `u` and seen set `s` over
procedures with non-empty, pairwise-distinct, unseen keys retains exactly
the next `25 - u.length` of them, in order. -/
lemma dedup_foldl_spec (xs : List Procedure) :
    ∀ (u : List Procedure) (s : List String),
      (∀ p ∈ xs, normTitle p.title ≠ "") →
      (xs.map fun p => normTitle p.title).Nodup →
      (∀ p ∈ xs, normTitle p.title ∉ s) →
      u.length ≤ 25 →
      (xs.foldl dedupStep (u, s)).1 = u ++ xs.take (25 - u.length) := by
  induction xs with
  | nil => intro u s _ _ _ _; simp
  | cons x rest ih =>
    intro u s hne hnodup hdisj hlen
    simp only [List.map_cons, List.nodup_cons] at hnodup
    by_cases hu : u.length < 25
    · have hkey : normTitle x.title ≠ "" := hne x (by simp)
      have hks : normTitle x.title ∉ s := hdisj x (by simp)
      have step : dedupStep (u, s) x = (u ++ [x], normTitle x.title :: s) := by
        simp [dedupStep, hkey, hks, hu]
      rw [List.foldl_cons, step,
        ih (u ++ [x]) (normTitle x.title :: s)
          (fun p hp => hne p (by simp [hp]))
          hnodup.2
          (by
            intro p hp
            simp only [List.mem_cons]
            push_neg
            refine ⟨?_, hdisj p (by simp [hp])⟩
            intro hEq
            exact hnodup.1 (hEq ▸ List.mem_map_of_mem _ hp))
          (by simp; omega)]
      have h25 : 25 - u.length = (25 - (u ++ [x]).length) + 1 := by simp; omega
      rw [h25]
      simp [List.take_succ_cons]
    · have step : dedupStep (u, s) x = (u, s) := by
        simp only [dedupStep]
        rw [if_neg]
        push_neg
        intro _ _
        omega
      have h0 : 25 - u.length = 0 := by omega
      rw [List.foldl_cons, step,
        ih u s (fun p hp => hne p (by simp [hp])) hnodup.2
          (fun p hp => hdisj p (by simp [hp])) hlen]
      simp [h0]

/-- Invariant of the dedup fold: the retained procedures always have
non-empty keys recorded in the seen set, pairwise-distinct keys, and number
at most 25. -/
lemma dedup_foldl_inv (xs : List Procedure) :
    ∀ (u : List Procedure) (s : List String),
      (∀ p ∈ u, normTitle p.title ≠ "" ∧ normTitle p.title ∈ s) →
      (u.map fun p => normTitle p.title).Nodup →
      u.length ≤ 25 →
      (∀ p ∈ (xs.foldl dedupStep (u, s)).1,
          normTitle p.title ≠ "" ∧ normTitle p.title ∈ (xs.foldl dedupStep (u, s)).2) ∧
        ((xs.foldl dedupStep (u, s)).1.map fun p => normTitle p.title).Nodup ∧
        (xs.foldl dedupStep (u, s)).1.length ≤ 25 := by
  induction xs with
  | nil => intro u s h1 h2 h3; exact ⟨h1, h2, h3⟩
  | cons x rest ih =>
    intro u s h1 h2 h3
    rw [List.foldl_cons]
    by_cases hc : normTitle x.title ≠ "" ∧ normTitle x.title ∉ s ∧ u.length < 25
    · have step : dedupStep (u, s) x = (u ++ [x], normTitle x.title :: s) := by
        simp only [dedupStep]
        rw [if_pos hc]
      rw [step]
      apply ih
      · intro p hp
        rcases List.mem_append.mp hp with hpu | hpx
        · exact ⟨(h1 p hpu).1, List.mem_cons_of_mem _ (h1 p hpu).2⟩
        · have : p = x := by simpa using hpx
          subst this
          exact ⟨hc.1, List.mem_cons_self _ _⟩
      · rw [List.map_append]
        simp only [List.map_cons, List.map_nil]
        rw [List.nodup_append]
        refine ⟨h2, List.nodup_singleton _, ?_⟩
        intro a ha hb
        simp only [List.mem_singleton] at hb
        subst hb
        rcases List.mem_map.mp ha with ⟨p, hpu, hpk⟩
        exact hc.2.1 (hpk ▸ (h1 p hpu).2)
      · simp
        omega
    · have step : dedupStep (u, s) x = (u, s) := by
        simp only [dedupStep]
        rw [if_neg hc]
      rw [step]
      exact ih u s h1 h2 h3

/-- C6: the title-based deduplication-and-cap step is idempotent — applying
it to its own output returns that output unchanged, for every input list. -/
theorem dedup_idempotent (xs : List Procedure) :
    dedupProcedures (dedupProcedures xs) = dedupProcedures xs := by
  have hinv := dedup_foldl_inv xs [] [] (by simp) (by simp) (by simp)
  set r := xs.foldl dedupStep ([], []) with hr
  have hspec := dedup_foldl_spec r.1 [] []
    (fun p hp => (hinv.1 p hp).1) hinv.2.1 (by simp) (by simp)
  unfold dedupProcedures
  rw [← hr, hspec]
  simp
  exact hinv.2.2

/-- First of the two case/whitespace-variant procedures of C3. -/
def startupA : Procedure := ⟨"Startup Sequence", []⟩

/-- Second of the two case/whitespace-variant procedures of C3: same title
up to case and trailing whitespace. -/
def startupB : Procedure := ⟨"startup sequence ", []⟩

/-- C3: aggregation dedups by the lower-cased trimmed title, keeps first
occurrences, and stops accepting once 25 are retained: a 30-procedure list
whose (non-empty) keys are pairwise distinct yields exactly its first 25
procedures — the later ones are dropped, not merged — and the pair titled
`"Startup Sequence"` / `"startup sequence "` retains exactly the first. -/
theorem dedup_caps_at_25_keeps_first (xs : List Procedure) (hlen : xs.length = 30)
    (hne : ∀ p ∈ xs, normTitle p.title ≠ "")
    (hnodup : (xs.map fun p => normTitle p.title).Nodup) :
    dedupProcedures xs = xs.take 25 ∧
      dedupProcedures [startupA, startupB] = [startupA] := by
  constructor
  · have := dedup_foldl_spec xs [] [] hne hnodup (by simp) (by simp)
    unfold dedupProcedures
    simpa using this
  · decide

/-- A concrete 30-procedure list with pairwise-distinct single-letter
titles, for the C3 witness. -/
def thirtyProcedures : List Procedure :=
  (List.range 30).map fun i => ⟨⟨[Char.ofNat (65 + i)]⟩, []⟩

/-- Witness for C3 at the concrete 30-procedure list. -/
theorem dedup_caps_at_25_witness :
    dedupProcedures thirtyProcedures = thirtyProcedures.take 25 ∧
      dedupProcedures [startupA, startupB] = [startupA] :=
  dedup_caps_at_25_keeps_first thirtyProcedures (by decide) (by decide) (by decide)

/-- C7: on a page that has a text layer (`bool(page.chars)` true) whose
extracted text strips to empty, with OCR enabled, the ingestor emits exactly
the OCR fallback elements: one `ocr` element when OCR returns non-empty
text, no element when OCR returns empty text or raises — and never a `text`
element with empty content (every emitted element is `ocr`-typed with
non-empty content). -/
theorem empty_text_layer_falls_back_to_ocr (page : PDFPage)
    (tesseractAvailable : Bool) (pageNum : Nat)
    (hchars : page.hasChars = true) (hempty : page.extractedText.pyStrip = "") :
    parsePage true tesseractAvailable pageNum page =
      (match page.ocrText with
       | none => []
       | some t =>
         if t.pyStrip = "" then []
         else [{ page := pageNum, element_type := "ocr", content := t.pyStrip,
                 has_text_layer := false, ocr_used := true }]) ∧
      ∀ e ∈ parsePage true tesseractAvailable pageNum page,
        e.element_type = "ocr" ∧ e.content ≠ "" := by
  have htxt : extractTextElements page pageNum = [] := by
    simp [extractTextElements, hempty]
  have hparse : parsePage true tesseractAvailable pageNum page =
      extractOcrElements page pageNum := by
    simp [parsePage, hchars, htxt]
  constructor
  · rw [hparse]
    unfold extractOcrElements
    rfl
  · intro e he
    rw [hparse] at he
    unfold extractOcrElements at he
    rcases hocr : page.ocrText with _ | t
    · rw [hocr] at he; simp at he
    · rw [hocr] at he
      by_cases ht : t.pyStrip = ""
      · simp [ht] at he
      · simp only [ht, if_neg ht] at he
        simp at he
        subst he
        exact ⟨rfl, ht⟩

/-- Witness for C7: a page whose text layer strips to empty and whose OCR
returns `"hello"`. -/
theorem empty_text_layer_ocr_witness :
    parsePage true true 1 ⟨true, "   ", some "hello"⟩ =
      (match (⟨true, "   ", some "hello"⟩ : PDFPage).ocrText with
       | none => []
       | some t =>
         if t.pyStrip = "" then []
         else [{ page := 1, element_type := "ocr", content := t.pyStrip,
                 has_text_layer := false, ocr_used := true }]) ∧
      ∀ e ∈ parsePage true true 1 ⟨true, "   ", some "hello"⟩,
        e.element_type = "ocr" ∧ e.content ≠ "" :=
  empty_text_layer_falls_back_to_ocr ⟨true, "   ", some "hello"⟩ true 1 rfl (by decide)

/-- C8: if one regex pattern raises on evaluation (modelled by its matcher
returning `none`), `extract_entities` does not abort — that pattern alone is
skipped, every other pattern of its category and of every other category is
still evaluated against every element, and the candidates of the non-failing
patterns are returned: dropping the failing pattern from its category leaves
the output unchanged. -/
theorem extract_entities_isolates_pattern_failure (pre post : PatternTable)
    (cat : String) (p1 p2 : List Matcher) (bad : Matcher)
    (elements : List PageElement) (hbad : ∀ s, bad s = none) :
    extractEntities (pre ++ (cat, p1 ++ bad :: p2) :: post) elements =
      extractEntities (pre ++ (cat, p1 ++ p2) :: post) elements := by
  unfold extractEntities
  refine congrArg (List.bind elements) (funext fun element => ?_)
  by_cases hel : element.element_type = "text" ∨ element.element_type = "ocr"
  · rw [if_pos hel, if_pos hel]
    simp [List.append_bind, List.cons_bind, runEntityPattern, hbad]
  · rw [if_neg hel, if_neg hel]

/-- A concrete well-behaved matcher for the C8 witness: one match with a
captured value on the witness content. -/
def c8GoodPattern : Matcher :=
  fun content =>
    if content = "made by acme corp today" then some [⟨"made by acme", [some "acme"], 0, 12⟩]
    else some []

/-- A concrete always-raising matcher for the C8 witness. -/
def c8BadPattern : Matcher := fun _ => none

/-- Witness for C8: with a one-category table holding a good pattern and an
always-raising pattern, extraction over a one-element document equals
extraction with the raising pattern removed. -/
theorem extract_entities_isolation_witness :
    extractEntities [("manufacturer", [c8GoodPattern, c8BadPattern])]
        [⟨1, "text", "Made by ACME Corp today", true, false⟩] =
      extractEntities [("manufacturer", [c8GoodPattern])]
        [⟨1, "text", "Made by ACME Corp today", true, false⟩] :=
  extract_entities_isolates_pattern_failure [] [] "manufacturer" [c8GoodPattern] []
    c8BadPattern [⟨1, "text", "Made by ACME Corp today", true, false⟩] (fun _ => rfl)

/-- A regex of the source tables with no match on the C1 scenario contents
(`"operating pressure: 45 psi"` and `"scanned page"`): hand-checked against
each literal pattern of `DIPProcessor.__init__` — none of them besides the
two pressure patterns below matches either content. -/
def noMatchPattern : Matcher := fun _ => some []

/-- `re.finditer` of the second pressure pattern
`pressure:\s*([0-9\.]+)\s*(psi|bar|pa|kpa|mpa)` (dip_processor.py:72) on the
C1 contents: on `"operating pressure: 45 psi"` it matches
`"pressure: 45 psi"` at span (10, 26) with groups `("45", "psi")`. -/
def pressurePattern2 : Matcher := fun content =>
  if content = "operating pressure: 45 psi" then
    some [⟨"pressure: 45 psi", [some "45", some "psi"], 10, 26⟩]
  else some []

/-- `re.finditer` of the third pressure pattern
`(?:operating|working|max|min)\s+pressure:\s*([0-9\.]+)\s*(psi|bar|pa|kpa|mpa)`
(dip_processor.py:73) on the C1 contents: on
`"operating pressure: 45 psi"` it matches the whole content at span (0, 26)
with groups `("45", "psi")`. -/
def pressurePattern3 : Matcher := fun content =>
  if content = "operating pressure: 45 psi" then
    some [⟨"operating pressure: 45 psi", [some "45", some "psi"], 0, 26⟩]
  else some []

/-- `spec_hint_patterns` (dip_processor.py:69-120) with each of its 34
literal regexes embedded by its behaviour on the C1 scenario contents:
pressure patterns 2 and 3 match as above, every other pattern has no
match on either content. -/
def specHintPatternsC1 : PatternTable :=
  [("pressure", [noMatchPattern, pressurePattern2, pressurePattern3, noMatchPattern]),
   ("temperature", [noMatchPattern, noMatchPattern, noMatchPattern, noMatchPattern, noMatchPattern]),
   ("voltage", [noMatchPattern, noMatchPattern, noMatchPattern, noMatchPattern, noMatchPattern]),
   ("flow_rate", [noMatchPattern, noMatchPattern, noMatchPattern, noMatchPattern]),
   ("dimension", [noMatchPattern, noMatchPattern, noMatchPattern, noMatchPattern]),
   ("power", [noMatchPattern, noMatchPattern, noMatchPattern, noMatchPattern]),
   ("capacity", [noMatchPattern, noMatchPattern, noMatchPattern, noMatchPattern]),
   ("efficiency", [noMatchPattern, noMatchPattern, noMatchPattern, noMatchPattern])]

/-- `entity_patterns` (dip_processor.py:26-67) on the C1 contents: none of
its 26 regexes matches `"operating pressure: 45 psi"` or `"scanned page"`
(hand-checked: every pattern needs a keyword-plus-colon, a corporate suffix,
or an equipment noun absent from both). -/
def entityPatternsC1 : PatternTable :=
  [("manufacturer", [noMatchPattern, noMatchPattern, noMatchPattern, noMatchPattern]),
   ("model", [noMatchPattern, noMatchPattern, noMatchPattern, noMatchPattern]),
   ("specification", [noMatchPattern, noMatchPattern, noMatchPattern, noMatchPattern]),
   ("warning", [noMatchPattern, noMatchPattern, noMatchPattern, noMatchPattern]),
   ("procedure", [noMatchPattern, noMatchPattern, noMatchPattern, noMatchPattern]),
   ("material", [noMatchPattern, noMatchPattern, noMatchPattern]),
   ("certification", [noMatchPattern, noMatchPattern, noMatchPattern])]

/-- `golden_test_patterns` (dip_processor.py:122-153) on the C1 contents:
none of its 20 regexes matches either content (hand-checked likewise). -/
def goldenTestPatternsC1 : PatternTable :=
  [("procedure", [noMatchPattern, noMatchPattern, noMatchPattern, noMatchPattern, noMatchPattern]),
   ("checklist", [noMatchPattern, noMatchPattern, noMatchPattern, noMatchPattern, noMatchPattern]),
   ("measurement", [noMatchPattern, noMatchPattern, noMatchPattern, noMatchPattern]),
   ("safety", [noMatchPattern, noMatchPattern, noMatchPattern]),
   ("performance", [noMatchPattern, noMatchPattern, noMatchPattern])]

/-- The extractor configuration of the C1 scenario.  `unitFromText` is never
consulted there (both surviving matches capture their unit group), and
`stepsOf` only runs on golden-test matches, of which there are none. -/
def configC1 : ExtractorConfig :=
  { entity_patterns := entityPatternsC1,
    spec_hint_patterns := specHintPatternsC1,
    golden_test_patterns := goldenTestPatternsC1,
    unitFromText := fun _ _ _ => none,
    stepsOf := fun _ _ => [] }

/-- The C1 two-page document: page 1 has a text layer whose extracted text
is `"Operating Pressure: 45 psi"` (its OCR is never invoked); page 2 has no
text layer and OCR returns the non-empty text `"Scanned page"`. -/
def pagesC1 : List PDFPage :=
  [⟨true, "Operating Pressure: 45 psi", none⟩,
   ⟨false, "", some "Scanned page"⟩]

/-- The elements `parse_pdf` produces for the C1 document with OCR enabled
and tesseract available. -/
def elementsC1 : List PageElement := parsePdfElements true true pagesC1

/-- The packet `process_document` assembles for the C1 document. -/
def packetC1 : DIPResult := processDocument configC1 elementsC1 "doc-c1"

/-- The match of `pressurePattern2` on the lower-cased page-1 content. -/
def m2C1 : RMatch := ⟨"pressure: 45 psi", [some "45", some "psi"], 10, 26⟩

/-- The match of `pressurePattern3` on the lower-cased page-1 content. -/
def m3C1 : RMatch := ⟨"operating pressure: 45 psi", [some "45", some "psi"], 0, 26⟩

/-- The packet's spec hints, computed: exactly two pressure hints with value
`"45"` and unit `"psi"` — lower-case, because `extract_spec_hints` matches
against the lower-cased content and takes the unit from capture group 2. -/
lemma packetC1_hints_structure :
    packetC1.spec_hints =
      [⟨"pressure", "45", some "psi", 1, "operating pressure: 45 psi",
          calculateConfidence m2C1 "operating pressure: 45 psi"⟩,
       ⟨"pressure", "45", some "psi", 1, "operating pressure: 45 psi",
          calculateConfidence m3C1 "operating pressure: 45 psi"⟩] := rfl

/-- Confidence of the 16-character match `"pressure: 45 psi"`:
0.7 + 0.05 + 0.1 = 0.85. -/
lemma confC1a : calculateConfidence m2C1 "operating pressure: 45 psi" = 17/20 := by
  simp only [calculateConfidence]
  rw [if_pos (by decide), if_neg (by decide), if_pos (by decide)]
  norm_num [pyMin]

/-- Confidence of the 26-character match `"operating pressure: 45 psi"`:
0.7 + 0.1 + 0.1 = 0.9. -/
lemma confC1b : calculateConfidence m3C1 "operating pressure: 45 psi" = 9/10 := by
  simp only [calculateConfidence]
  rw [if_pos (by decide), if_pos (by decide)]
  norm_num [pyMin]

/-- The packet counts two distinct processed pages. -/
lemma packetC1_pages : packetC1.pages_processed = 2 := by decide

/-- Counterexample to C1 as stated: in the concrete two-page scenario
(page-1 text `"Operating Pressure: 45 psi"`, page-2 OCR `"Scanned page"`,
OCR enabled and available), no spec hint of the packet has unit `"PSI"` —
the content is lower-cased before matching, so both pressure hints carry
unit `"psi"`. -/
theorem end_to_end_no_uppercase_psi_hint :
    ¬ ∃ h ∈ packetC1.spec_hints,
        h.hint_type = "pressure" ∧ h.value = "45" ∧ h.unit = some "PSI" ∧
          (4/5 : ℚ) ≤ h.confidence := by
  rw [packetC1_hints_structure]
  rintro ⟨h, hmem, -, -, hunit, -⟩
  simp only [List.mem_cons, List.not_mem_nil, or_false] at hmem
  rcases hmem with hmem | hmem
  · subst hmem; simp at hunit
  · subst hmem; simp at hunit

/-- C1 amended: in the same scenario the packet's spec hints include one
`pressure` hint with value `"45"`, unit `"psi"` (lower-case), and confidence
at least 0.8, and `pages_processed` equals 2. -/
theorem end_to_end_pressure_hint_and_pages :
    (∃ h ∈ packetC1.spec_hints,
        h.hint_type = "pressure" ∧ h.value = "45" ∧ h.unit = some "psi" ∧
          (4/5 : ℚ) ≤ h.confidence) ∧
      packetC1.pages_processed = 2 := by
  rw [packetC1_hints_structure]
  refine ⟨⟨_, List.mem_cons_self _ _, rfl, rfl, rfl, ?_⟩, packetC1_pages⟩
  rw [confC1a]
  norm_num
